import Mathlib

/-!
Verification of the PyCompiler self-extracting packager
(src/pycclinux.c and src/bootandbuild.c, two near-duplicate variants).

Shallow embedding: bytes are `Nat` (file bytes are < 256), files are
`List Nat`.  The external Python compiler and executor are opaque
collaborators, modelled by boolean-valued parameters (`execOk`,
`marshalOk`).  Machine integers are `Nat`/`Int` with explicit
wrap-around where the C code's fixed-width arithmetic matters.
-/

/-- `FOOTER_MAGIC[] = "PYBND"` — byte values of the 5-byte sentinel. -/
def FOOTER_MAGIC : List Nat := [80, 89, 66, 78, 68]

/-- `FOOTER_MAGIC_LEN = 5`. -/
def FOOTER_MAGIC_LEN : Nat := 5

/-- `FOOTER_LEN = 5 + 8` — magic + 8-byte payload size. -/
def FOOTER_LEN : Nat := 13

/-- `write_u64_le`: the C loop `buf[i] = (v >> (8*i)) & 0xFF` for `i = 0..7`,
producing the 8 bytes written to the stream. -/
def write_u64_le (v : Nat) : List Nat :=
  (List.range 8).map (fun i => (v >>> (8 * i)) &&& 255)

/-- `read_u64_le`: `fread` asks for 8 bytes; if fewer arrive the function
returns 0; otherwise the C loop `v |= buf[i] << (8*i)` for `i = 0..7`.
The argument is the byte list the read delivered. -/
def read_u64_le (bytes : List Nat) : Nat :=
  if bytes.length = 8 then
    (List.range 8).foldl (fun v i => v ||| ((bytes.getD i 0) <<< (8 * i))) 0
  else 0

/-- FooterCodec encode: `magic ++ little_endian_u64(payload_size)`
(the builder writes `FOOTER_MAGIC` then `write_u64_le(payload_size)`). -/
def footer_encode (n : Nat) : List Nat :=
  FOOTER_MAGIC ++ write_u64_le n

/-- FooterCodec decode, as the launcher performs it on the trailing 13
bytes: compare the first 5 bytes against the magic, then read the
remaining 8 as an unsigned little-endian integer. -/
def footer_decode (b : List Nat) : Bool × Nat :=
  (decide (b.take FOOTER_MAGIC_LEN = FOOTER_MAGIC),
   read_u64_le ((b.drop FOOTER_MAGIC_LEN).take 8))

/-- `append_payload_to_stub`: stream-copy the stub, stream-copy the payload
(accumulating its byte count in a `uint64_t`), then write the magic and the
size field.  The output bytes are stub ++ payload ++ magic ++ LE64(count),
with the count held in a 64-bit unsigned accumulator. -/
def append_payload_to_stub (stub payload : List Nat) : List Nat :=
  stub ++ payload ++ FOOTER_MAGIC ++ write_u64_le (payload.length % 2 ^ 64)

/-- Two's-complement wrap of an integer into a signed 64-bit `long`,
as the x86-64 evaluation of the C expression
`endpos - (long)FOOTER_LEN - (long)payload_size` behaves.
(9223372036854775808 = 2^63, 18446744073709551616 = 2^64.) -/
def wrap64 (x : Int) : Int :=
  (x + 9223372036854775808) % 18446744073709551616 - 9223372036854775808

/-- The 5 bytes the launcher reads at offset `endpos - FOOTER_LEN`. -/
def magicSlice (file : List Nat) : List Nat :=
  (file.drop (file.length - FOOTER_LEN)).take FOOTER_MAGIC_LEN

/-- The 8 bytes the launcher reads at offset `endpos - 8` (the stream
position after the magic read). -/
def sizeSlice (file : List Nat) : List Nat :=
  (file.drop (file.length - 8)).take 8

/-- The format-checking and extraction phase of `run_appended_payload`,
up to writing the scratch file: returns the extracted payload bytes or
the function's error return code.
  * size < FOOTER_LEN           → 4
  * magic mismatch              → 7   ("No embedded payload found")
  * payload_size == 0           → 8   ("Embedded payload size is zero")
  * payload_start < 0 (signed)  → 9   ("Invalid payload start")
Otherwise the scratch file receives the bytes from `payload_start` up to
`payload_size` bytes or end-of-file, whichever comes first (the fread
loop stops at `got == 0`). -/
def extract_payload (file : List Nat) : Except Nat (List Nat) :=
  let endpos := file.length
  if endpos < FOOTER_LEN then .error 4
  else if magicSlice file ≠ FOOTER_MAGIC then .error 7
  else
    let payload_size := read_u64_le (sizeSlice file)
    if payload_size = 0 then .error 8
    else
      let payload_start := wrap64 ((endpos : Int) - (FOOTER_LEN : Int) - (payload_size : Int))
      if payload_start < 0 then .error 9
      else .ok ((file.drop payload_start.toNat).take payload_size)

/-- Outcome of one launcher invocation: the return code of
`run_appended_payload`, the bytes materialised into the scratch file
(`none` when the scratch file was never created), and whether the
scratch file was deleted (`remove(tmpname)`) before returning. -/
structure RunOutcome where
  code : Nat
  extracted : Option (List Nat)
  scratchDeleted : Bool
deriving DecidableEq, Repr

/-- `run_appended_payload` of src/pycclinux.c.  After extraction the
payload is executed (`PyRun_SimpleString`, abstracted by `execOk` on the
scratch bytes); on failure the scratch file is removed and 13 returned;
on success the scratch file is removed and 0 returned. -/
def run_appended_payload (execOk : List Nat → Bool) (file : List Nat) : RunOutcome :=
  match extract_payload file with
  | .error c => ⟨c, none, false⟩
  | .ok e => if execOk e then ⟨0, some e, true⟩ else ⟨13, some e, true⟩

/-- `run_appended_payload` of src/bootandbuild.c.  Same extraction, but
the failure path returns 13 without removing the scratch file and the
success path's `remove(tmpname)` is commented out, so the scratch file
is never deleted. -/
def run_appended_payload_bb (execOk : List Nat → Bool) (file : List Nat) : RunOutcome :=
  match extract_payload file with
  | .error c => ⟨c, none, false⟩
  | .ok e => if execOk e then ⟨0, some e, false⟩ else ⟨13, some e, false⟩

/-- The Executor adapter of src/pycclinux.c: the embedded Python snippet
tries `marshal.loads(data[16:])`, on exception `marshal.loads(data[12:])`,
and finally `marshal.loads(data[8:])`; the first deserialization that
succeeds (abstracted by `marshalOk`) is executed.  Returns the byte
suffix that was deserialized and executed, or `none` when every attempt
failed. -/
def run_extracted_pyc (marshalOk : List Nat → Bool) (data : List Nat) : Option (List Nat) :=
  if marshalOk (data.drop 16) then some (data.drop 16)
  else if marshalOk (data.drop 12) then some (data.drop 12)
  else if marshalOk (data.drop 8) then some (data.drop 8)
  else none

/-- The internal failure kinds named by the spec's exit-code taxonomy. -/
inductive FailureKind where
  | selfPathResolution
  | unreadableSelf
  | tooSmall
  | unreadableFooter
  | absentPayload
  | zeroLengthPayload
  | corruptFooter
  | scratchCreate
  | compileFailure
  | appendWriteFailure
  | execFailure
  | usageError
deriving DecidableEq, Repr

/-- The process exit code each failure kind produces, read off the
return statements of both variants (identical in the two files):
`main` returns 1 on usage error; `run_appended_payload` returns 1, 2,
4, 6, 7, 8, 9, 11, 13 on its failure paths; `build_pyc_with_python`
returns 2 on compile failure; `append_payload_to_stub` returns 1
(`rc = 1`) on any open/write failure, and `builder_mode`/`main` pass
these through as the exit status. -/
def exitCode : FailureKind → Nat
  | .selfPathResolution => 1
  | .unreadableSelf => 2
  | .tooSmall => 4
  | .unreadableFooter => 6
  | .absentPayload => 7
  | .zeroLengthPayload => 8
  | .corruptFooter => 9
  | .scratchCreate => 11
  | .compileFailure => 2
  | .appendWriteFailure => 1
  | .execFailure => 13
  | .usageError => 1

/-- What `main` dispatches to. -/
inductive DispatchResult where
  | usage
  | build (script outExe : String)
  | launch
deriving DecidableEq, Repr

/-- `main`'s dispatch: `argc >= 2 && strcmp(argv[1], "--build") == 0`
selects build handling; there, `argc < 4` prints usage and returns 1,
otherwise `builder_mode(argv[2], argv[3])` runs (arguments beyond
`argv[3]` are not examined); every other shape runs the launcher. -/
def main_dispatch (argv : List String) : DispatchResult :=
  if 2 ≤ argv.length ∧ argv.getD 1 "" = "--build" then
    if argv.length < 4 then .usage
    else .build (argv.getD 2 "") (argv.getD 3 "")
  else .launch

/-- Bit-disjointness: or-ing a value below `2^k` with a left-shift by `k`
is plain addition.  This is the only fact needed to read the C loop
`v |= buf[i] << (8*i)` as accumulation. -/
theorem lor_lowbits (s b k : Nat) (hs : s < 2 ^ k) :
    s ||| b <<< k = s + b * 2 ^ k := by
  rw [Nat.shiftLeft_eq, Nat.or_comm, Nat.mul_comm b (2 ^ k), ← Nat.mul_add_lt_is_or hs b]
  exact Nat.add_comm _ _

/-- `read_u64_le` inverts `write_u64_le` on every value below `2^64`. -/
theorem read_write_u64 (v : Nat) (h : v < 2 ^ 64) :
    read_u64_le (write_u64_le v) = v := by
  show (((((((((0 : Nat) ||| (v &&& 255)) ||| (((v >>> 8) &&& 255) <<< 8)) |||
      (((v >>> 16) &&& 255) <<< 16)) ||| (((v >>> 24) &&& 255) <<< 24)) |||
      (((v >>> 32) &&& 255) <<< 32)) ||| (((v >>> 40) &&& 255) <<< 40)) |||
      (((v >>> 48) &&& 255) <<< 48)) ||| (((v >>> 56) &&& 255) <<< 56)) = v
  rw [show (255 : Nat) = 2 ^ 8 - 1 from rfl]
  simp only [Nat.and_pow_two_sub_one_eq_mod, Nat.shiftRight_eq_div_pow, Nat.zero_or]
  have e1 : (v % 2 ^ 8) ||| ((v / 2 ^ 8 % 2 ^ 8) <<< 8) =
      v % 2 ^ 8 + (v / 2 ^ 8 % 2 ^ 8) * 2 ^ 8 := lor_lowbits _ _ _ (by omega)
  rw [e1]
  have e2 : (v % 2 ^ 8 + (v / 2 ^ 8 % 2 ^ 8) * 2 ^ 8) ||| ((v / 2 ^ 16 % 2 ^ 8) <<< 16) =
      (v % 2 ^ 8 + (v / 2 ^ 8 % 2 ^ 8) * 2 ^ 8) + (v / 2 ^ 16 % 2 ^ 8) * 2 ^ 16 :=
    lor_lowbits _ _ _ (by omega)
  rw [e2]
  have e3 : (v % 2 ^ 8 + (v / 2 ^ 8 % 2 ^ 8) * 2 ^ 8 + (v / 2 ^ 16 % 2 ^ 8) * 2 ^ 16) |||
      ((v / 2 ^ 24 % 2 ^ 8) <<< 24) =
      (v % 2 ^ 8 + (v / 2 ^ 8 % 2 ^ 8) * 2 ^ 8 + (v / 2 ^ 16 % 2 ^ 8) * 2 ^ 16) +
        (v / 2 ^ 24 % 2 ^ 8) * 2 ^ 24 :=
    lor_lowbits _ _ _ (by omega)
  rw [e3]
  have e4 : (v % 2 ^ 8 + (v / 2 ^ 8 % 2 ^ 8) * 2 ^ 8 + (v / 2 ^ 16 % 2 ^ 8) * 2 ^ 16 +
      (v / 2 ^ 24 % 2 ^ 8) * 2 ^ 24) ||| ((v / 2 ^ 32 % 2 ^ 8) <<< 32) =
      (v % 2 ^ 8 + (v / 2 ^ 8 % 2 ^ 8) * 2 ^ 8 + (v / 2 ^ 16 % 2 ^ 8) * 2 ^ 16 +
        (v / 2 ^ 24 % 2 ^ 8) * 2 ^ 24) + (v / 2 ^ 32 % 2 ^ 8) * 2 ^ 32 :=
    lor_lowbits _ _ _ (by omega)
  rw [e4]
  have e5 : (v % 2 ^ 8 + (v / 2 ^ 8 % 2 ^ 8) * 2 ^ 8 + (v / 2 ^ 16 % 2 ^ 8) * 2 ^ 16 +
      (v / 2 ^ 24 % 2 ^ 8) * 2 ^ 24 + (v / 2 ^ 32 % 2 ^ 8) * 2 ^ 32) |||
      ((v / 2 ^ 40 % 2 ^ 8) <<< 40) =
      (v % 2 ^ 8 + (v / 2 ^ 8 % 2 ^ 8) * 2 ^ 8 + (v / 2 ^ 16 % 2 ^ 8) * 2 ^ 16 +
        (v / 2 ^ 24 % 2 ^ 8) * 2 ^ 24 + (v / 2 ^ 32 % 2 ^ 8) * 2 ^ 32) +
        (v / 2 ^ 40 % 2 ^ 8) * 2 ^ 40 :=
    lor_lowbits _ _ _ (by omega)
  rw [e5]
  have e6 : (v % 2 ^ 8 + (v / 2 ^ 8 % 2 ^ 8) * 2 ^ 8 + (v / 2 ^ 16 % 2 ^ 8) * 2 ^ 16 +
      (v / 2 ^ 24 % 2 ^ 8) * 2 ^ 24 + (v / 2 ^ 32 % 2 ^ 8) * 2 ^ 32 +
      (v / 2 ^ 40 % 2 ^ 8) * 2 ^ 40) ||| ((v / 2 ^ 48 % 2 ^ 8) <<< 48) =
      (v % 2 ^ 8 + (v / 2 ^ 8 % 2 ^ 8) * 2 ^ 8 + (v / 2 ^ 16 % 2 ^ 8) * 2 ^ 16 +
        (v / 2 ^ 24 % 2 ^ 8) * 2 ^ 24 + (v / 2 ^ 32 % 2 ^ 8) * 2 ^ 32 +
        (v / 2 ^ 40 % 2 ^ 8) * 2 ^ 40) + (v / 2 ^ 48 % 2 ^ 8) * 2 ^ 48 :=
    lor_lowbits _ _ _ (by omega)
  rw [e6]
  have e7 : (v % 2 ^ 8 + (v / 2 ^ 8 % 2 ^ 8) * 2 ^ 8 + (v / 2 ^ 16 % 2 ^ 8) * 2 ^ 16 +
      (v / 2 ^ 24 % 2 ^ 8) * 2 ^ 24 + (v / 2 ^ 32 % 2 ^ 8) * 2 ^ 32 +
      (v / 2 ^ 40 % 2 ^ 8) * 2 ^ 40 + (v / 2 ^ 48 % 2 ^ 8) * 2 ^ 48) |||
      ((v / 2 ^ 56 % 2 ^ 8) <<< 56) =
      (v % 2 ^ 8 + (v / 2 ^ 8 % 2 ^ 8) * 2 ^ 8 + (v / 2 ^ 16 % 2 ^ 8) * 2 ^ 16 +
        (v / 2 ^ 24 % 2 ^ 8) * 2 ^ 24 + (v / 2 ^ 32 % 2 ^ 8) * 2 ^ 32 +
        (v / 2 ^ 40 % 2 ^ 8) * 2 ^ 40 + (v / 2 ^ 48 % 2 ^ 8) * 2 ^ 48) +
        (v / 2 ^ 56 % 2 ^ 8) * 2 ^ 56 :=
    lor_lowbits _ _ _ (by omega)
  rw [e7]
  have d2 : v / 2 ^ 16 = v / 2 ^ 8 / 2 ^ 8 := by
    rw [Nat.div_div_eq_div_mul]; norm_num
  have d3 : v / 2 ^ 24 = v / 2 ^ 16 / 2 ^ 8 := by
    rw [Nat.div_div_eq_div_mul]; norm_num
  have d4 : v / 2 ^ 32 = v / 2 ^ 24 / 2 ^ 8 := by
    rw [Nat.div_div_eq_div_mul]; norm_num
  have d5 : v / 2 ^ 40 = v / 2 ^ 32 / 2 ^ 8 := by
    rw [Nat.div_div_eq_div_mul]; norm_num
  have d6 : v / 2 ^ 48 = v / 2 ^ 40 / 2 ^ 8 := by
    rw [Nat.div_div_eq_div_mul]; norm_num
  have d7 : v / 2 ^ 56 = v / 2 ^ 48 / 2 ^ 8 := by
    rw [Nat.div_div_eq_div_mul]; norm_num
  omega

/-- Decoding an encoded footer recovers validity and the size, for any
size below `2^64`. -/
theorem footer_decode_encode (n : Nat) (h : n < 2 ^ 64) :
    footer_decode (footer_encode n) = (true, n) := by
  have e : footer_encode n = 80 :: 89 :: 66 :: 78 :: 68 :: write_u64_le n := rfl
  have t5 : (80 :: 89 :: 66 :: 78 :: 68 :: write_u64_le n).take FOOTER_MAGIC_LEN =
      FOOTER_MAGIC := rfl
  have d5 : (80 :: 89 :: 66 :: 78 :: 68 :: write_u64_le n).drop FOOTER_MAGIC_LEN =
      write_u64_le n := rfl
  have t8 : (write_u64_le n).take 8 = write_u64_le n :=
    List.take_of_length_le (by simp [write_u64_le])
  rw [footer_decode, e, t5, d5, t8, read_write_u64 n h]
  simp

/-- C1: FooterCodec is read/write symmetric: for every `n` in
`[1, 2^64 - 1]`, decoding the 13 bytes produced by encoding `n`
(magic "PYBND" followed by `n` as unsigned little-endian 64-bit)
yields `(valid = true, n)`. -/
theorem footer_roundtrip (n : Nat) (h1 : 1 ≤ n) (h2 : n ≤ 2 ^ 64 - 1) :
    footer_decode (footer_encode n) = (true, n) :=
  footer_decode_encode n (by omega)

/-- Witness for C1 at `n = 3`. -/
theorem footer_roundtrip_witness :
    1 ≤ 3 ∧ 3 ≤ 2 ^ 64 - 1 ∧ footer_decode (footer_encode 3) = (true, 3) :=
  ⟨by norm_num, by norm_num, footer_roundtrip 3 (by norm_num) (by norm_num)⟩

/-- C2: a successful build writes exactly
`stub_bytes ++ payload_bytes ++ footer`, and the footer's size field
decodes back to the exact number of payload bytes copied. -/
theorem append_layout (stub payload : List Nat) (h : payload.length < 2 ^ 64) :
    append_payload_to_stub stub payload =
      stub ++ payload ++ footer_encode payload.length ∧
    footer_decode (footer_encode payload.length) = (true, payload.length) := by
  refine ⟨?_, footer_decode_encode _ h⟩
  unfold append_payload_to_stub footer_encode
  rw [Nat.mod_eq_of_lt h]
  simp [List.append_assoc]

/-- Witness for C2 with a 1-byte stub and a 2-byte payload. -/
theorem append_layout_witness :
    ([2, 3] : List Nat).length < 2 ^ 64 ∧
    (append_payload_to_stub [1] [2, 3] =
        [1] ++ [2, 3] ++ footer_encode ([2, 3] : List Nat).length ∧
      footer_decode (footer_encode ([2, 3] : List Nat).length) =
        (true, ([2, 3] : List Nat).length)) :=
  ⟨by norm_num, append_layout [1] [2, 3] (by norm_num)⟩

/-- Branch lemma: a file below the footer size yields error 4. -/
theorem extract_too_small (file : List Nat) (h : file.length < FOOTER_LEN) :
    extract_payload file = .error 4 := by
  simp [extract_payload, h]

/-- Branch lemma: magic mismatch yields error 7. -/
theorem extract_bad_magic (file : List Nat) (h1 : ¬ file.length < FOOTER_LEN)
    (h2 : magicSlice file ≠ FOOTER_MAGIC) :
    extract_payload file = .error 7 := by
  simp [extract_payload, h1, h2]

/-- Branch lemma: a decoded payload size of zero yields error 8. -/
theorem extract_zero_size (file : List Nat) (h1 : ¬ file.length < FOOTER_LEN)
    (h2 : magicSlice file = FOOTER_MAGIC) (h3 : read_u64_le (sizeSlice file) = 0) :
    extract_payload file = .error 8 := by
  simp [extract_payload, h1, h2, h3]

/-- Branch lemma: a negative (signed, wrapped) payload start yields error 9. -/
theorem extract_neg_start (file : List Nat) (h1 : ¬ file.length < FOOTER_LEN)
    (h2 : magicSlice file = FOOTER_MAGIC) (h3 : read_u64_le (sizeSlice file) ≠ 0)
    (h4 : wrap64 ((file.length : Int) - (FOOTER_LEN : Int) -
      (read_u64_le (sizeSlice file) : Int)) < 0) :
    extract_payload file = .error 9 := by
  simp [extract_payload, h1, h2, h3, h4]

/-- Branch lemma: on a well-formed footer the payload slice is returned. -/
theorem extract_ok (file : List Nat) (h1 : ¬ file.length < FOOTER_LEN)
    (h2 : magicSlice file = FOOTER_MAGIC) (h3 : read_u64_le (sizeSlice file) ≠ 0)
    (h4 : ¬ wrap64 ((file.length : Int) - (FOOTER_LEN : Int) -
      (read_u64_le (sizeSlice file) : Int)) < 0) :
    extract_payload file = .ok ((file.drop (wrap64 ((file.length : Int) -
      (FOOTER_LEN : Int) - (read_u64_le (sizeSlice file) : Int))).toNat).take
      (read_u64_le (sizeSlice file))) := by
  simp [extract_payload, h1, h2, h3, h4]

/-- C3: a self binary shorter than the 13-byte footer is rejected with
return code 4, the "too small" condition; the outcome is the constant
`⟨4, none, false⟩` (no byte of the file is consulted, so nothing is
read out of bounds), and code 4 arises in no other situation. -/
theorem run_too_small (execOk : List Nat → Bool) (file : List Nat) :
    (file.length < FOOTER_LEN →
      run_appended_payload execOk file = ⟨4, none, false⟩) ∧
    ((run_appended_payload execOk file).code = 4 ↔ file.length < FOOTER_LEN) := by
  constructor
  · intro h
    simp [run_appended_payload, extract_too_small file h]
  · by_cases h1 : file.length < FOOTER_LEN
    · simp [run_appended_payload, extract_too_small file h1, h1]
    · by_cases h2 : magicSlice file = FOOTER_MAGIC
      · by_cases h3 : read_u64_le (sizeSlice file) = 0
        · simp [run_appended_payload, extract_zero_size file h1 h2 h3, h1]
        · by_cases h4 : wrap64 ((file.length : Int) - (FOOTER_LEN : Int) -
            (read_u64_le (sizeSlice file) : Int)) < 0
          · simp [run_appended_payload, extract_neg_start file h1 h2 h3 h4, h1]
          · simp only [run_appended_payload, extract_ok file h1 h2 h3 h4]
            cases hx : execOk ((file.drop (wrap64 ((file.length : Int) -
                (FOOTER_LEN : Int) - (read_u64_le (sizeSlice file) : Int))).toNat).take
                (read_u64_le (sizeSlice file))) <;> simp [hx, h1]
      · simp [run_appended_payload, extract_bad_magic file h1 h2, h1]

/-- Witness for C3 on a 1-byte file. -/
theorem run_too_small_witness :
    ([0] : List Nat).length < FOOTER_LEN ∧
    run_appended_payload (fun _ => true) [0] = ⟨4, none, false⟩ :=
  ⟨by decide, (run_too_small (fun _ => true) [0]).1 (by decide)⟩

/-- C4: whenever the trailing 13 bytes do not begin with "PYBND"
(any corruption, in particular any single-byte change of a valid magic),
the launcher returns exactly code 7 ("no embedded payload") with no
extraction and no crash, and code 7 arises exactly in this situation. -/
theorem run_bad_magic (execOk : List Nat → Bool) (file : List Nat) :
    ((run_appended_payload execOk file).code = 7 ↔
      FOOTER_LEN ≤ file.length ∧ magicSlice file ≠ FOOTER_MAGIC) ∧
    (FOOTER_LEN ≤ file.length → magicSlice file ≠ FOOTER_MAGIC →
      run_appended_payload execOk file = ⟨7, none, false⟩) := by
  constructor
  · by_cases h1 : file.length < FOOTER_LEN
    · simp [run_appended_payload, extract_too_small file h1]
      omega
    · by_cases h2 : magicSlice file = FOOTER_MAGIC
      · by_cases h3 : read_u64_le (sizeSlice file) = 0
        · simp [run_appended_payload, extract_zero_size file h1 h2 h3, h2]
        · by_cases h4 : wrap64 ((file.length : Int) - (FOOTER_LEN : Int) -
            (read_u64_le (sizeSlice file) : Int)) < 0
          · simp [run_appended_payload, extract_neg_start file h1 h2 h3 h4, h2]
          · simp only [run_appended_payload, extract_ok file h1 h2 h3 h4]
            cases hx : execOk ((file.drop (wrap64 ((file.length : Int) -
                (FOOTER_LEN : Int) - (read_u64_le (sizeSlice file) : Int))).toNat).take
                (read_u64_le (sizeSlice file))) <;> simp [hx, h2]
      · simp [run_appended_payload, extract_bad_magic file h1 h2, h2]
        omega
  · intro h1 h2
    simp [run_appended_payload, extract_bad_magic file (by omega) h2]

/-- Witness for C4: a footer whose magic has its first byte corrupted
from 80 to 81. -/
theorem run_bad_magic_witness :
    magicSlice [81, 89, 66, 78, 68, 1, 0, 0, 0, 0, 0, 0, 0] ≠ FOOTER_MAGIC ∧
    run_appended_payload (fun _ => true) [81, 89, 66, 78, 68, 1, 0, 0, 0, 0, 0, 0, 0] =
      ⟨7, none, false⟩ :=
  ⟨by decide,
   (run_bad_magic (fun _ => true) [81, 89, 66, 78, 68, 1, 0, 0, 0, 0, 0, 0, 0]).2
     (by decide) (by decide)⟩

/-- C5: a 13-byte file (payload region empty) whose valid footer claims
`payload_size = 2^64 - 1` is NOT rejected with the corrupt-footer code 9:
the signed 64-bit evaluation of
`endpos - (long)FOOTER_LEN - (long)payload_size` wraps around to the
positive value 1, the `payload_start < 0` check passes, and the launcher
extracts a garbage slice and proceeds to the execution step (returning
13 when execution fails), although the claimed size vastly exceeds
`file_size - footer_size`. -/
theorem oversized_size_not_rejected :
    read_u64_le (sizeSlice (FOOTER_MAGIC ++ [255, 255, 255, 255, 255, 255, 255, 255])) =
      2 ^ 64 - 1 ∧
    (FOOTER_MAGIC ++ [255, 255, 255, 255, 255, 255, 255, 255] : List Nat).length -
      FOOTER_LEN < 2 ^ 64 - 1 ∧
    run_appended_payload (fun _ => false)
        (FOOTER_MAGIC ++ [255, 255, 255, 255, 255, 255, 255, 255]) =
      ⟨13, some [89, 66, 78, 68, 255, 255, 255, 255, 255, 255, 255, 255], true⟩ := by
  refine ⟨by decide, by decide, ?_⟩
  decide

/-- C6 counterexample: in the src/bootandbuild.c variant a launcher
invocation that reaches and completes the execution step leaves the
scratch file undeleted (`remove(tmpname)` is commented out). -/
theorem bb_scratch_not_deleted :
    run_appended_payload_bb (fun _ => true)
        ([7] ++ FOOTER_MAGIC ++ [1, 0, 0, 0, 0, 0, 0, 0]) =
      ⟨0, some [7], false⟩ := by
  decide

/-- C6 amended: whenever extraction succeeds (so the execution step is
reached), the src/pycclinux.c launcher deletes the scratch file whether
execution succeeded or failed, while the src/bootandbuild.c launcher
never deletes it. -/
theorem scratch_deletion_by_variant (execOk : List Nat → Bool) (file : List Nat)
    (e : List Nat) (h : extract_payload file = .ok e) :
    (run_appended_payload execOk file).scratchDeleted = true ∧
    (run_appended_payload_bb execOk file).scratchDeleted = false := by
  cases hx : execOk e <;>
    simp [run_appended_payload, run_appended_payload_bb, h, hx]

/-- Witness for C6's amended statement on a 14-byte file with a 1-byte
payload, under an executor that fails. -/
theorem scratch_deletion_by_variant_witness :
    extract_payload ([7] ++ FOOTER_MAGIC ++ [1, 0, 0, 0, 0, 0, 0, 0]) = .ok [7] ∧
    (run_appended_payload (fun _ => false)
        ([7] ++ FOOTER_MAGIC ++ [1, 0, 0, 0, 0, 0, 0, 0])).scratchDeleted = true ∧
    (run_appended_payload_bb (fun _ => false)
        ([7] ++ FOOTER_MAGIC ++ [1, 0, 0, 0, 0, 0, 0, 0])).scratchDeleted = false :=
  ⟨by rfl,
   (scratch_deletion_by_variant (fun _ => false) _ [7] (by rfl)).1,
   (scratch_deletion_by_variant (fun _ => false) _ [7] (by rfl)).2⟩

/-- C7: the Executor adapter does not determine the header length from
the payload's version tag: its behaviour is completely insensitive to
the payload's first 8 bytes (which contain the pyc version tag): any two
payloads agreeing from byte 8 onward are treated identically, because
only the fixed guessed skip offsets 16, 12 and 8 are ever tried. -/
theorem executor_ignores_version_tag (marshalOk : List Nat → Bool)
    (d1 d2 : List Nat) (h : d1.drop 8 = d2.drop 8) :
    run_extracted_pyc marshalOk d1 = run_extracted_pyc marshalOk d2 := by
  have h16 : d1.drop 16 = d2.drop 16 := by
    rw [show (16 : Nat) = 8 + 8 from rfl, ← List.drop_drop, ← List.drop_drop, h]
  have h12 : d1.drop 12 = d2.drop 12 := by
    rw [show (12 : Nat) = 8 + 4 from rfl, ← List.drop_drop, ← List.drop_drop, h]
  simp [run_extracted_pyc, h16, h12, h]

/-- Witness for C7: two payloads with different version tags (bytes 0-7)
but identical bodies lead the adapter to the same outcome. -/
theorem executor_ignores_version_tag_witness :
    ([1, 2, 3, 4, 5, 6, 7, 8, 100] : List Nat).drop 8 =
      ([9, 10, 11, 12, 13, 14, 15, 16, 100] : List Nat).drop 8 ∧
    run_extracted_pyc (fun _ => true) [1, 2, 3, 4, 5, 6, 7, 8, 100] =
      run_extracted_pyc (fun _ => true) [9, 10, 11, 12, 13, 14, 15, 16, 100] :=
  ⟨by decide, executor_ignores_version_tag (fun _ => true) _ _ (by decide)⟩

/-- C8 counterexample: failure kinds share exit codes: the CLI usage
error, the append/write failure and the self-path resolution failure all
exit with 1, and the compile failure exits with 2 like the
unreadable-self failure. -/
theorem exit_code_collision :
    exitCode .usageError = exitCode .appendWriteFailure ∧
    exitCode .usageError = exitCode .selfPathResolution ∧
    exitCode .compileFailure = exitCode .unreadableSelf := by
  decide

/-- C8 amended: the launcher-side failure kinds have pairwise distinct
exit codes (1, 2, 4, 6, 7, 8, 9, 11, 13), but usage error, self-path
resolution failure and append/write failure all share exit code 1, and
compile failure shares exit code 2 with unreadable-self. -/
theorem exit_codes_launcher_distinct :
    [exitCode .selfPathResolution, exitCode .unreadableSelf, exitCode .tooSmall,
     exitCode .unreadableFooter, exitCode .absentPayload, exitCode .zeroLengthPayload,
     exitCode .corruptFooter, exitCode .scratchCreate,
     exitCode .execFailure].Pairwise (· ≠ ·) ∧
    exitCode .usageError = 1 ∧ exitCode .appendWriteFailure = 1 ∧
    exitCode .selfPathResolution = 1 ∧ exitCode .compileFailure = 2 ∧
    exitCode .unreadableSelf = 2 := by
  decide

/-- C9 counterexample: `--build` with three further arguments is not a
usage error: the code only checks `argc < 4`, so the extra argument is
silently ignored and the build proceeds. -/
theorem build_extra_args_not_usage :
    main_dispatch ["prog", "--build", "a", "b", "c"] = .build "a" "b" ∧
    main_dispatch ["prog", "--build", "a", "b", "c"] ≠ .usage := by
  decide

/-- C9 amended: `--build` with fewer than two further arguments is a
usage error with exit code 1 and no build action; with more than two the
extras are ignored and the build proceeds on the first two. -/
theorem build_flag_underarity_usage (argv : List String)
    (h1 : 2 ≤ argv.length) (h2 : argv.getD 1 "" = "--build")
    (h3 : argv.length < 4) :
    main_dispatch argv = .usage ∧ exitCode .usageError = 1 := by
  unfold main_dispatch
  rw [if_pos ⟨h1, h2⟩, if_pos h3]
  exact ⟨rfl, rfl⟩

/-- Witness for C9's amended statement at `prog --build x`. -/
theorem build_flag_underarity_usage_witness :
    2 ≤ (["prog", "--build", "x"] : List String).length ∧
    (["prog", "--build", "x"] : List String).getD 1 "" = "--build" ∧
    (["prog", "--build", "x"] : List String).length < 4 ∧
    (main_dispatch ["prog", "--build", "x"] = .usage ∧ exitCode .usageError = 1) :=
  ⟨by decide, by decide, by decide,
   build_flag_underarity_usage ["prog", "--build", "x"] (by decide) (by decide) (by decide)⟩

/-- C10: `read_u64_le` returns 0 whenever fewer than the requested
8 bytes were read, and any launcher state with a valid magic whose size
field decodes to 0 — whether genuinely encoded as zero or zeroed by a
short read — takes the "zero-length payload" path, return code 8, with
no distinct footer-read failure. -/
theorem short_size_read_is_zero_payload (bytes : List Nat)
    (execOk : List Nat → Bool) (file : List Nat) (hb : bytes.length < 8)
    (hlen : FOOTER_LEN ≤ file.length) (hmagic : magicSlice file = FOOTER_MAGIC)
    (hsize : read_u64_le (sizeSlice file) = 0) :
    read_u64_le bytes = 0 ∧
    run_appended_payload execOk file = ⟨8, none, false⟩ := by
  constructor
  · unfold read_u64_le
    rw [if_neg (by omega)]
  · simp [run_appended_payload,
      extract_zero_size file (by omega) hmagic hsize]

/-- Witness for C10: a 3-byte truncated size field, and a file whose
footer has a valid magic and an explicit zero size field. -/
theorem short_size_read_is_zero_payload_witness :
    ([1, 2, 3] : List Nat).length < 8 ∧
    FOOTER_LEN ≤ (FOOTER_MAGIC ++ [0, 0, 0, 0, 0, 0, 0, 0] : List Nat).length ∧
    magicSlice (FOOTER_MAGIC ++ [0, 0, 0, 0, 0, 0, 0, 0]) = FOOTER_MAGIC ∧
    read_u64_le (sizeSlice (FOOTER_MAGIC ++ [0, 0, 0, 0, 0, 0, 0, 0])) = 0 ∧
    (read_u64_le [1, 2, 3] = 0 ∧
      run_appended_payload (fun _ => true) (FOOTER_MAGIC ++ [0, 0, 0, 0, 0, 0, 0, 0]) =
        ⟨8, none, false⟩) :=
  ⟨by decide, by decide, by decide, by decide,
   short_size_read_is_zero_payload [1, 2, 3] (fun _ => true)
     (FOOTER_MAGIC ++ [0, 0, 0, 0, 0, 0, 0, 0]) (by decide) (by decide)
     (by decide) (by decide)⟩
